import Mathlib

/-!
Verification of the `FlipViewWindows` component
(`src/Libraries/Components/FlipViewWindows/FlipViewWindows.windows.js`).

The component is a thin declarative wrapper over a native paging control:
it forwards configuration props, rewrites each child element's style so the
child fills the container, relays selection-change events to an optional
callback, and exposes an imperative `setPage` that dispatches a native
command.  We embed the component's pure logic shallowly:

* child values (`ChildG`) model the possible React children: null/undefined,
  booleans, numbers, strings and elements; `truthy` is JS truthiness and
  `coerceChild` is React's traversal coercion of boolean/undefined children
  to null before the mapping function is applied;
* `childMapFn` is the body of the callback passed to `React.Children.map`
  inside `_childrenWithOverridenStyle` (lines 103-127); it throws a
  `TypeError` (modelled with `Except.error`) when a truthy non-element child
  is reached, because `child.props` is `undefined` and the code reads
  `child.props.style`;
* `reactChildrenMap` is `React.Children.map`: it applies the coercion, calls
  the function and drops null results;
* `componentDidMount` and `setPage` produce the list of native command
  dispatches they issue; `onSelectionChangeRelay` produces the list of
  callback invocations (callback id paired with the event passed);
* for the frame property about mutation, a second embedding threads an
  explicit heap of element records (`Heap`, `mapChildrenH`): children refer
  to elements by address, and the rewriting allocates fresh records.
-/

namespace FlipView

/-- The fixed style override object built inside `_childrenWithOverridenStyle`:
`{position: absolute, left: 0, top: 0, right: 0, bottom: 0,
  width: undefined, height: undefined}`. -/
structure FillStyle where
  position : String
  left : Int
  top : Int
  right : Int
  bottom : Int
  width : Option Int
  height : Option Int
deriving DecidableEq, Repr

/-- A JS style value as the component manipulates it: `undef` is an absent
style, `atom` an opaque caller-supplied style value, `fill` the override
object, and `pair` the two-element array `[a, b]` the code constructs. -/
inductive Style where
  | undef : Style
  | atom : Nat → Style
  | fill : FillStyle → Style
  | pair : Style → Style → Style
deriving DecidableEq, Repr

/-- The props object of a child element: its `style`, its `collapsable`
flag (absent, or a boolean), and the remaining properties, modelled as an
opaque association list that the spread `{...child.props}` copies verbatim. -/
structure Props where
  style : Style
  collapsable : Option Bool
  other : List (String × Nat)
deriving DecidableEq, Repr

/-- A React component type: an opaque identity plus an optional
`displayName` (string types and anonymous composites have none). -/
structure ComponentType where
  id : Nat
  displayName : Option String
deriving DecidableEq, Repr

/-- A React element: its `type` (possibly undefined for malformed elements,
mirroring the `child.type &&` guard) and its props object. -/
structure Element where
  type : Option ComponentType
  props : Props
deriving DecidableEq, Repr

/-- A React child value, parametrised by the representation of elements
(element records for the pure embedding, heap addresses for the heap one).
`nullItem` covers both `null` and `undefined`. -/
inductive ChildG (α : Type) where
  | nullItem : ChildG α
  | boolItem : Bool → ChildG α
  | numItem : Int → ChildG α
  | strItem : String → ChildG α
  | elemItem : α → ChildG α
deriving DecidableEq, Repr

abbrev Child := ChildG Element

/-- JS truthiness of a child value, as tested by `if (!child)`. -/
def ChildG.truthy {α : Type} : ChildG α → Bool
  | .nullItem => false
  | .boolItem b => b
  | .numItem n => n != 0
  | .strItem s => s != ""
  | .elemItem _ => true

/-- `React.Children.map` traversal coerces `undefined` and boolean children
to `null` before invoking the mapping function. -/
def coerceChild {α : Type} : ChildG α → ChildG α
  | .boolItem _ => .nullItem
  | c => c

/-- The override object itself (lines 108-115 of the source). -/
def overrideFill : FillStyle :=
  { position := "absolute", left := 0, top := 0, right := 0, bottom := 0,
    width := none, height := none }

/-- `newProps` (lines 107-118): spread of the original props with `style`
replaced by the array `[child.props.style, override]` and `collapsable`
forced to `false`. -/
def rewriteProps (p : Props) : Props :=
  { style := Style.pair p.style (Style.fill overrideFill)
  , collapsable := some false
  , other := p.other }

/-- `React.createElement(child.type, newProps)` (line 126). -/
def rewriteElem (e : Element) : Element :=
  { type := e.type, props := rewriteProps e.props }

/-- The fixed warning text (line 124), completed with the offending name. -/
def warnMsg (d : String) : String :=
  "Each FlipView child must be a <View>. Was " ++ d

/-- The `console.warn` emissions for one element child (lines 120-125):
the guard is `child.type && child.type.displayName && (name !== RCTView)
&& (name !== View)`, so an undefined type, an undefined `displayName` or a
falsy (empty) `displayName` all skip the warning. -/
def childWarnings (e : Element) : List String :=
  match e.type with
  | none => []
  | some t =>
    match t.displayName with
    | none => []
    | some d =>
      if d != "" && d != "RCTView" && d != "View" then [warnMsg d] else []

/-- The body of the function passed to `React.Children.map` (lines
103-127).  A falsy child returns `null`; a truthy element child is rewritten
(possibly warning); a truthy non-element child throws a `TypeError`, because
`child.props` is `undefined` and the code evaluates `child.props.style`
while building `newProps`, before the warning check is reached. -/
def childMapFn (c : Child) : Except String (Option Element × List String) :=
  if c.truthy = false then
    Except.ok (none, [])
  else
    match c with
    | .elemItem e => Except.ok (some (rewriteElem e), childWarnings e)
    | _ => Except.error "TypeError: cannot read property style of undefined"

/-- `React.Children.map` over the children list: coerce each child, apply
the mapping function in order (the first thrown error propagates), and drop
`null` results from the output array.  The second component accumulates the
warnings logged along the way. -/
def reactChildrenMap : List Child → Except String (List Element × List String)
  | [] => Except.ok ([], [])
  | c :: cs =>
    match childMapFn (coerceChild c) with
    | Except.error s => Except.error s
    | Except.ok (r, w) =>
      match reactChildrenMap cs with
      | Except.error s => Except.error s
      | Except.ok (res, ws) => Except.ok (r.toList ++ res, w ++ ws)

/-- The configuration props of the component (§3 of the spec), plus the
children list. -/
structure FlipViewProps where
  initialPage : Option Int
  alwaysAnimate : Option Bool
  selectedIndex : Option Int
  style : Style
  onSelectionChange : Option Nat
  children : List Child
deriving Repr

/-- The native-control element produced by `render()` (lines 147-158). -/
structure NativeFlipView where
  refName : String
  style : Style
  alwaysAnimate : Option Bool
  selectedIndex : Option Int
  children : List Element
deriving DecidableEq, Repr

/-- `render()`: builds the `NativeWindowsFlipView` element with the
forwarded props and the rewritten children; an exception thrown by
`_childrenWithOverridenStyle` propagates. -/
def render (p : FlipViewProps) : Except String NativeFlipView :=
  match reactChildrenMap p.children with
  | Except.error s => Except.error s
  | Except.ok (es, _) =>
    Except.ok
      { refName := "flipView"
      , style := p.style
      , alwaysAnimate := p.alwaysAnimate
      , selectedIndex := p.selectedIndex
      , children := es }

/-- One native command dispatch:
`UIManager.dispatchViewManagerCommand(handle, commandId, args)`. -/
structure Command where
  handle : Nat
  command : String
  args : List Int
deriving DecidableEq, Repr

/-- `setPage` (lines 139-145): one unconditional dispatch of the native
`setPage` command with argument list `[selectedPage]`. -/
def setPage (handle : Nat) (selectedPage : Int) : List Command :=
  [{ handle := handle, command := "setPage", args := [selectedPage] }]

/-- `componentDidMount` (lines 89-93): `if (this.props.initialPage)` is a JS
truthiness test on a number, so the call happens exactly when `initialPage`
is defined and nonzero. -/
def componentDidMount (handle : Nat) (initialPage : Option Int) : List Command :=
  match initialPage with
  | none => []
  | some p => if p != 0 then setPage handle p else []

/-- The payload of a selection-change event. -/
structure NativeEvent where
  position : Int
deriving DecidableEq, Repr

/-- A selection-change event `{nativeEvent: {position: p}}`. -/
structure Event where
  nativeEvent : NativeEvent
deriving DecidableEq, Repr

/-- `_onSelectionChange` (lines 130-134): the list of callback invocations
performed for one incoming event, as pairs of the (opaque) callback identity
and the event object passed to it. -/
def onSelectionChangeRelay (cb : Option Nat) (e : Event) : List (Nat × Event) :=
  match cb with
  | some f => [(f, e)]
  | none => []

/-- The element picked out of a child by a successful rewrite pass:
element children map to their rewritten element, everything else to
nothing.  Used to state order preservation of `reactChildrenMap`. -/
def rewriteItem : Child → Option Element
  | .elemItem e => some (rewriteElem e)
  | _ => none

/-- Number of null/undefined entries of a children list (the only entries
the spec says are dropped). -/
def countNullish : List Child → Nat
  | [] => 0
  | .nullItem :: cs => 1 + countNullish cs
  | _ :: cs => countNullish cs

/-! ### Heap embedding for the mutation (frame) property

Elements live in a heap of records; children refer to them by address.
The rewrite reads the record at the child's address and appends a freshly
allocated rewritten record, leaving existing cells untouched. -/

abbrev Heap := List Element

abbrev ChildH := ChildG Nat

/-- Heap version of `childMapFn`: an element child's record is read from
the heap and a new record is allocated at the end; the returned address is
the fresh cell's. -/
def childMapFnH (h : Heap) (c : ChildH) :
    Except String (Heap × Option Nat × List String) :=
  if c.truthy = false then
    Except.ok (h, none, [])
  else
    match c with
    | .elemItem a =>
      match h.get? a with
      | some e => Except.ok (h ++ [rewriteElem e], some h.length, childWarnings e)
      | none => Except.error "invalid element reference"
    | _ => Except.error "TypeError: cannot read property style of undefined"

/-- Heap version of `reactChildrenMap`, threading the heap left to right. -/
def mapChildrenH : Heap → List ChildH → Except String (Heap × List Nat × List String)
  | h, [] => Except.ok (h, [], [])
  | h, c :: cs =>
    match childMapFnH h (coerceChild c) with
    | Except.error s => Except.error s
    | Except.ok (h1, r, w) =>
      match mapChildrenH h1 cs with
      | Except.error s => Except.error s
      | Except.ok (h2, rs, ws) => Except.ok (h2, r.toList ++ rs, w ++ ws)

end FlipView

namespace FlipView

/-! ### Concrete fixtures used by witnesses and counterexamples -/

/-- A well-formed page child: a `View` element with some style and props. -/
def wElem : Element :=
  { type := some { id := 1, displayName := some "View" }
  , props := { style := Style.atom 7, collapsable := none, other := [("testID", 3)] } }

/-- An element whose type has the empty string as `displayName`. -/
def emptyNameElem : Element :=
  { type := some { id := 2, displayName := some "" }
  , props := { style := Style.undef, collapsable := none, other := [] } }

/-- A composite child: its type has no `displayName`. -/
def anonElem : Element :=
  { type := some { id := 3, displayName := none }
  , props := { style := Style.atom 1, collapsable := some true, other := [] } }

/-- A child of a non-view type with a defined, nonempty `displayName`. -/
def textElem : Element :=
  { type := some { id := 4, displayName := some "Text" }
  , props := { style := Style.atom 2, collapsable := none, other := [("k", 0)] } }

/-! ### Claims -/

/-- Claim C1, counterexample: with `initialPage` set to the defined integer
`0`, mounting issues zero page-set commands, not exactly one — the JS
truthiness test `if (this.props.initialPage)` rejects `0`. -/
theorem c1_counterexample :
    componentDidMount 7 (some 0) = [] ∧
    (componentDidMount 7 (some 0)).length ≠ 1 := by
  decide

/-- Claim C1 (amended): on first mount, exactly one page-set command with
the configured integer as sole argument is issued when `initialPage` is a
defined *nonzero* integer; zero commands are issued when `initialPage` is
unset *or zero* (zero is falsy, so the truthiness test skips the call). -/
theorem c1_mount (handle : Nat) (p : Option Int) :
    (∀ n : Int, p = some n → n ≠ 0 →
      componentDidMount handle p =
        [{ handle := handle, command := "setPage", args := [n] }]) ∧
    (p = none → componentDidMount handle p = []) ∧
    (p = some 0 → componentDidMount handle p = []) := by
  refine ⟨?_, ?_, ?_⟩
  · intro n hn hne
    subst hn
    simp [componentDidMount, setPage, hne]
  · intro hn
    subst hn
    rfl
  · intro hn
    subst hn
    simp [componentDidMount]

/-- Witness for C1 (amended) at `initialPage = 3`, `0` and unset. -/
theorem c1_mount_w :
    componentDidMount 5 (some 3) =
      [{ handle := 5, command := "setPage", args := [3] }] ∧
    componentDidMount 5 (some 0) = [] ∧
    componentDidMount 5 none = [] :=
  ⟨(c1_mount 5 (some 3)).1 3 rfl (by decide),
   (c1_mount 5 (some 0)).2.2 rfl,
   (c1_mount 5 none).2.1 rfl⟩

/-- Claim C3: every rewritten child keeps the original type, gets as style
the original style value followed by the fixed fill-overlay override
`{position: absolute, left: 0, top: 0, right: 0, bottom: 0,
width: undefined, height: undefined}`, gets `collapsable := false`, and
keeps all other original properties unchanged. -/
theorem c3_rewrite (e : Element) :
    ∃ w, childMapFn (ChildG.elemItem e) = Except.ok (some (rewriteElem e), w) ∧
      (rewriteElem e).type = e.type ∧
      (rewriteElem e).props.style =
        Style.pair e.props.style (Style.fill
          { position := "absolute", left := 0, top := 0, right := 0, bottom := 0,
            width := none, height := none }) ∧
      (rewriteElem e).props.collapsable = some false ∧
      (rewriteElem e).props.other = e.props.other :=
  ⟨childWarnings e, rfl, rfl, rfl, rfl, rfl⟩

/-- Claim C4: for every integer `k`, `setPage k` issues exactly one command
dispatch, whose argument list is `[k]`, independently of any child count
(the dispatch list is the same for all configurations). -/
theorem c4_setPage (handle : Nat) (k : Int) :
    setPage handle k = [{ handle := handle, command := "setPage", args := [k] }] ∧
    (setPage handle k).length = 1 :=
  ⟨rfl, rfl⟩

/-- Claim C5: with a configured callback the relay invokes it exactly once
with the identical event object; with no callback it performs no invocation
(and, being total, raises no error). -/
theorem c5_relay (f : Nat) (e : Event) :
    onSelectionChangeRelay (some f) e = [(f, e)] ∧
    onSelectionChangeRelay none e = [] :=
  ⟨rfl, rfl⟩

end FlipView

namespace FlipView

/-! ### Helper lemmas about the child map -/

/-- A falsy child is mapped to `null` and produces no warning. -/
theorem childMapFn_falsy (c : Child) (h : c.truthy = false) :
    childMapFn c = Except.ok (none, []) := by
  simp [childMapFn, h]

/-- The traversal coercion preserves falsiness. -/
theorem coerce_truthy_false {α : Type} (c : ChildG α) (h : c.truthy = false) :
    (coerceChild c).truthy = false := by
  cases c <;> simp_all [coerceChild, ChildG.truthy]

/-- Element children pass the coercion unchanged. -/
theorem coerceChild_elem {α : Type} (e : α) :
    coerceChild (ChildG.elemItem e) = ChildG.elemItem e := rfl

/-- An element child is rewritten, with its warnings. -/
theorem childMapFn_elem (e : Element) :
    childMapFn (ChildG.elemItem e) =
      Except.ok (some (rewriteElem e), childWarnings e) := rfl

/-- When every truthy (after coercion) child is an element, the map
succeeds and returns exactly the rewritten elements, in input order. -/
theorem reactChildrenMap_elems (cs : List Child)
    (h : ∀ c ∈ cs, (coerceChild c).truthy = true → ∃ e, c = ChildG.elemItem e) :
    ∃ ws, reactChildrenMap cs = Except.ok (cs.filterMap rewriteItem, ws) := by
  induction cs with
  | nil => exact ⟨[], rfl⟩
  | cons c cs ih =>
    obtain ⟨ws, hws⟩ := ih (fun c' hc' => h c' (List.mem_cons_of_mem _ hc'))
    by_cases ht : (coerceChild c).truthy = true
    · obtain ⟨e, rfl⟩ := h c (List.mem_cons_self _ _) ht
      refine ⟨childWarnings e ++ ws, ?_⟩
      simp [reactChildrenMap, coerceChild_elem, childMapFn_elem, hws,
        List.filterMap_cons, rewriteItem]
    · have ht' : (coerceChild c).truthy = false := by
        cases hb : (coerceChild c).truthy
        · rfl
        · exact absurd hb ht
      have hnone : childMapFn (coerceChild c) = Except.ok (none, []) :=
        childMapFn_falsy _ ht'
      have hritem : rewriteItem c = none := by
        cases c <;> simp_all [rewriteItem, coerceChild, ChildG.truthy]
      refine ⟨ws, ?_⟩
      simp [reactChildrenMap, hnone, hws, List.filterMap_cons, hritem]

/-- Counting surviving children: the rewritten list is exactly as long as
the list of truthy-after-coercion inputs. -/
theorem filterMap_length_filter (cs : List Child)
    (h : ∀ c ∈ cs, (coerceChild c).truthy = true → ∃ e, c = ChildG.elemItem e) :
    (cs.filterMap rewriteItem).length =
      (cs.filter (fun c => (coerceChild c).truthy)).length := by
  induction cs with
  | nil => rfl
  | cons c cs ih =>
    have ih' := ih (fun c' hc' => h c' (List.mem_cons_of_mem _ hc'))
    by_cases ht : (coerceChild c).truthy = true
    · obtain ⟨e, rfl⟩ := h c (List.mem_cons_self _ _) ht
      simp [List.filterMap_cons, List.filter_cons, rewriteItem,
        coerceChild_elem, ChildG.truthy, ih']
    · have ht' : (coerceChild c).truthy = false := by
        cases hb : (coerceChild c).truthy
        · rfl
        · exact absurd hb ht
      have hritem : rewriteItem c = none := by
        cases c <;> simp_all [rewriteItem, coerceChild, ChildG.truthy]
      simp [List.filterMap_cons, List.filter_cons, hritem, ht', ih']

/-! ### Claims C2, C6, C7, C9, C10 -/

/-- A configuration whose children list contains a (truthy) string child. -/
def badProps : FlipViewProps :=
  { initialPage := none, alwaysAnimate := none, selectedIndex := none,
    style := Style.undef, onSelectionChange := none,
    children := [ChildG.strItem "oops"] }

/-- Claim C2, counterexample: with a malformed truthy string child,
`render()` raises a `TypeError` instead of producing a native-control
element — `child.props` is `undefined` for a string child and the code
reads `child.props.style`. -/
theorem c2_counterexample :
    render badProps =
      Except.error "TypeError: cannot read property style of undefined" := rfl

/-- Claim C2 (amended): `render()` is total — it produces a native-control
element and raises no error — for every configuration whose truthy (after
React's boolean-to-null coercion) children are all elements; falsy
children (null/undefined, `false`, `0`, the empty string) degrade
gracefully, but truthy non-element children (nonempty strings, nonzero
numbers) make `render()` throw a `TypeError`. -/
theorem c2_total (p : FlipViewProps)
    (h : ∀ c ∈ p.children, (coerceChild c).truthy = true →
      ∃ e, c = ChildG.elemItem e) :
    ∃ v, render p = Except.ok v := by
  obtain ⟨ws, hws⟩ := reactChildrenMap_elems p.children h
  refine ⟨{ refName := "flipView", style := p.style,
            alwaysAnimate := p.alwaysAnimate, selectedIndex := p.selectedIndex,
            children := p.children.filterMap rewriteItem }, ?_⟩
  simp [render, hws]

/-- A well-formed configuration: an element child plus assorted falsy
children. -/
def goodProps : FlipViewProps :=
  { initialPage := some 1, alwaysAnimate := some true, selectedIndex := none,
    style := Style.atom 0, onSelectionChange := some 9,
    children := [ChildG.elemItem wElem, ChildG.nullItem, ChildG.numItem 0,
                 ChildG.boolItem true, ChildG.strItem ""] }

/-- Witness for C2 (amended) on a concrete well-formed configuration. -/
theorem c2_total_w : (render goodProps).isOk = true := by
  have h : ∀ c ∈ goodProps.children, (coerceChild c).truthy = true →
      ∃ e, c = ChildG.elemItem e := by
    intro c hc ht
    simp [goodProps] at hc
    rcases hc with rfl | rfl | rfl | rfl | rfl
    · exact ⟨wElem, rfl⟩
    · exact absurd ht (by decide)
    · exact absurd ht (by decide)
    · exact absurd ht (by decide)
    · exact absurd ht (by decide)
  obtain ⟨v, hv⟩ := c2_total goodProps h
  rw [hv]
  rfl

/-- Claim C6, counterexample: the input `[0]` has no null/undefined entry,
so the claim predicts one rendered child, but the falsy number `0` is
dropped by the `if (!child)` test and zero children are rendered. -/
theorem c6_counterexample :
    reactChildrenMap [ChildG.numItem 0] = Except.ok ([], []) ∧
    countNullish [ChildG.numItem 0] = 0 ∧
    ([ChildG.numItem 0] : List Child).length - countNullish [ChildG.numItem 0] = 1 :=
  ⟨rfl, rfl, rfl⟩

/-- Claim C6 (amended): for every input child list whose truthy children
are elements, the rendered list is exactly the rewritten element children
in input order (order preserved), and its length is the input length minus
the number of *falsy* entries — null/undefined, booleans, zero, empty
string — not merely the null/undefined ones. -/
theorem c6_amended (cs : List Child)
    (h : ∀ c ∈ cs, (coerceChild c).truthy = true → ∃ e, c = ChildG.elemItem e) :
    ∃ res ws, reactChildrenMap cs = Except.ok (res, ws) ∧
      res = cs.filterMap rewriteItem ∧
      res.length = (cs.filter (fun c => (coerceChild c).truthy)).length := by
  obtain ⟨ws, hws⟩ := reactChildrenMap_elems cs h
  exact ⟨cs.filterMap rewriteItem, ws, hws, rfl, filterMap_length_filter cs h⟩

/-- Witness for C6 (amended) on a concrete mixed children list. -/
theorem c6_amended_w :
    (reactChildrenMap [ChildG.elemItem wElem, ChildG.numItem 0]).isOk = true := by
  have h : ∀ c ∈ [ChildG.elemItem wElem, ChildG.numItem 0],
      (coerceChild c).truthy = true → ∃ e, c = ChildG.elemItem e := by
    intro c hc ht
    simp at hc
    rcases hc with rfl | rfl
    · exact ⟨wElem, rfl⟩
    · exact absurd ht (by decide)
  obtain ⟨res, ws, hr, _, _⟩ := c6_amended [ChildG.elemItem wElem, ChildG.numItem 0] h
  rw [hr]
  rfl

/-- Claim C7, counterexample: the element `emptyNameElem` has the defined
displayed type name `""`, which differs from both `"RCTView"` and
`"View"`, yet no warning is logged — the guard tests the name for JS
truthiness and the empty string is falsy. -/
theorem c7_counterexample :
    childMapFn (ChildG.elemItem emptyNameElem) =
      Except.ok (some (rewriteElem emptyNameElem), []) ∧
    emptyNameElem.type = some { id := 2, displayName := some "" } ∧
    ("" : String) ≠ "RCTView" ∧ ("" : String) ≠ "View" :=
  ⟨rfl, rfl, by decide, by decide⟩

/-- Claim C7 (amended): for every child whose displayed type name is a
defined *nonempty* string other than `"RCTView"` and `"View"`, exactly one
warning is logged, consisting of the fixed message followed by the
offending type name, and the rendered output is the same rewritten element
as in the warning-free cases — the warning neither throws nor alters
rendering. -/
theorem c7_warning (e : Element) (t : ComponentType) (d : String)
    (h1 : e.type = some t) (h2 : t.displayName = some d)
    (h3 : d ≠ "") (h4 : d ≠ "RCTView") (h5 : d ≠ "View") :
    childMapFn (ChildG.elemItem e) =
      Except.ok (some (rewriteElem e), [warnMsg d]) := by
  have hw : childWarnings e = [warnMsg d] := by
    simp [childWarnings, h1, h2, h3, h4, h5]
  rw [childMapFn_elem, hw]

/-- Witness for C7 (amended) on a `Text`-typed child. -/
theorem c7_warning_w :
    childMapFn (ChildG.elemItem textElem) =
      Except.ok (some (rewriteElem textElem), [warnMsg "Text"]) :=
  c7_warning textElem { id := 4, displayName := some "Text" } "Text" rfl rfl
    (by decide) (by decide) (by decide)

/-- Claim C9: every falsy child — `false`, `0`, the empty string — is
skipped exactly as a null child is: prepending it to any children list
leaves the result of the map (elements and warnings alike) unchanged, so
falsy values never reach the rewriting or warning logic. -/
theorem c9_falsy (c : Child) (cs : List Child) (h : c.truthy = false) :
    reactChildrenMap (c :: cs) = reactChildrenMap cs ∧
    reactChildrenMap (ChildG.nullItem :: cs) = reactChildrenMap cs := by
  have key : ∀ c' : Child, c'.truthy = false →
      reactChildrenMap (c' :: cs) = reactChildrenMap cs := by
    intro c' hc'
    have h1 : childMapFn (coerceChild c') = Except.ok (none, []) :=
      childMapFn_falsy _ (coerce_truthy_false _ hc')
    cases hr : reactChildrenMap cs with
    | error s => simp [reactChildrenMap, h1, hr]
    | ok p =>
      cases p with
      | mk a b => simp [reactChildrenMap, h1, hr]
  exact ⟨key c h, key ChildG.nullItem rfl⟩

/-- Witness for C9 at the falsy children `0`, `""` and `false`. -/
theorem c9_falsy_w :
    reactChildrenMap [ChildG.numItem 0] = reactChildrenMap ([] : List Child) ∧
    reactChildrenMap [ChildG.strItem ""] = reactChildrenMap ([] : List Child) ∧
    reactChildrenMap [ChildG.boolItem false] = reactChildrenMap ([] : List Child) :=
  ⟨(c9_falsy (ChildG.numItem 0) [] (by decide)).1,
   (c9_falsy (ChildG.strItem "") [] (by decide)).1,
   (c9_falsy (ChildG.boolItem false) [] (by decide)).1⟩

/-- Claim C10: the non-View warning is emitted only when both `child.type`
and `child.type.displayName` are defined; a child whose type lacks a
`displayName` is rewritten silently, with no warning logged. -/
theorem c10_no_warning (e : Element)
    (h : ∀ t, e.type = some t → t.displayName = none) :
    childMapFn (ChildG.elemItem e) = Except.ok (some (rewriteElem e), []) := by
  have hw : childWarnings e = [] := by
    cases he : e.type with
    | none => simp [childWarnings, he]
    | some t =>
      have hd := h t he
      simp [childWarnings, he, hd]
  rw [childMapFn_elem, hw]

/-- Witness for C10 on a composite child with an anonymous type. -/
theorem c10_no_warning_w :
    childMapFn (ChildG.elemItem anonElem) =
      Except.ok (some (rewriteElem anonElem), []) :=
  c10_no_warning anonElem (fun t ht => by
    injection ht with hh
    subst hh
    rfl)

end FlipView

namespace FlipView

/-- Frame property of one heap step: the heap only grows, existing cells
are untouched, and a returned address is the fresh top-of-heap cell. -/
theorem childMapFnH_frame (h : Heap) (c : ChildH) (h1 : Heap) (r : Option Nat)
    (w : List String) (hrun : childMapFnH h c = Except.ok (h1, r, w)) :
    h.length ≤ h1.length ∧
    (∀ a, a < h.length → h1[a]? = h[a]?) ∧
    (∀ a, r = some a → a = h.length) := by
  unfold childMapFnH at hrun
  by_cases ht : c.truthy = false
  · simp [ht] at hrun
    obtain ⟨rfl, rfl, rfl⟩ := hrun
    exact ⟨le_refl _, fun a _ => rfl, fun a ha => by cases ha⟩
  · simp [ht] at hrun
    cases c with
    | elemItem addr =>
      cases hg : h[addr]? with
      | none => simp [hg] at hrun
      | some e =>
        simp [hg] at hrun
        obtain ⟨rfl, rfl, rfl⟩ := hrun
        refine ⟨by simp, ?_, ?_⟩
        · intro a ha
          exact List.getElem?_append_left ha
        · intro a ha
          cases ha
          rfl
    | nullItem => simp [ChildG.truthy] at ht
    | boolItem b =>
      cases b
      · simp [ChildG.truthy] at ht
      · simp at hrun
    | numItem n => simp at hrun
    | strItem s => simp at hrun

/-- Frame property of a whole mapping pass over the heap: the heap only
grows, every pre-existing cell is unchanged, and every returned address is
at or above the original top of heap (a fresh cell). -/
theorem mapChildrenH_frame (cs : List ChildH) :
    ∀ h0 h2 addrs ws, mapChildrenH h0 cs = Except.ok (h2, addrs, ws) →
      h0.length ≤ h2.length ∧
      (∀ a, a < h0.length → h2[a]? = h0[a]?) ∧
      (∀ a ∈ addrs, h0.length ≤ a) := by
  induction cs with
  | nil =>
    intro h0 h2 addrs ws hrun
    simp [mapChildrenH] at hrun
    obtain ⟨rfl, rfl, rfl⟩ := hrun
    exact ⟨le_refl _, fun a _ => rfl, by simp⟩
  | cons c cs ih =>
    intro h0 h2 addrs ws hrun
    simp only [mapChildrenH] at hrun
    cases hc1 : childMapFnH h0 (coerceChild c) with
    | error s => rw [hc1] at hrun; simp at hrun
    | ok p =>
      obtain ⟨h1, r, w⟩ := p
      rw [hc1] at hrun
      dsimp only at hrun
      cases hc2 : mapChildrenH h1 cs with
      | error s => rw [hc2] at hrun; simp at hrun
      | ok q =>
        obtain ⟨h2x, rs, wsx⟩ := q
        rw [hc2] at hrun
        simp at hrun
        obtain ⟨rfl, rfl, rfl⟩ := hrun
        obtain ⟨l1, f1, a1⟩ := childMapFnH_frame h0 (coerceChild c) h1 r w hc1
        obtain ⟨l2, f2, a2⟩ := ih h1 h2x rs wsx hc2
        refine ⟨le_trans l1 l2, ?_, ?_⟩
        · intro a ha
          rw [f2 a (lt_of_lt_of_le ha l1), f1 a ha]
        · intro a ha
          rcases List.mem_append.mp ha with hmem | hmem
          · cases r with
            | none => simp [Option.toList] at hmem
            | some b =>
              simp [Option.toList] at hmem
              subst hmem
              exact le_of_eq (a1 a rfl).symm
          · exact le_trans l1 (a2 a hmem)

/-- Claim C8: the child-rewriting step never mutates the original child
elements or their properties — running the rewrite over a heap of element
records leaves every pre-existing cell equal to its original value, and
every element of the produced array is a freshly allocated cell (its
address lies at or above the original top of heap). -/
theorem c8_no_mutation (h0 : Heap) (cs : List ChildH) (h2 : Heap)
    (addrs : List Nat) (ws : List String)
    (hrun : mapChildrenH h0 cs = Except.ok (h2, addrs, ws)) :
    (∀ a, a < h0.length → h2[a]? = h0[a]?) ∧
    (∀ a ∈ addrs, h0.length ≤ a) := by
  obtain ⟨_, f, fr⟩ := mapChildrenH_frame cs h0 h2 addrs ws hrun
  exact ⟨f, fr⟩

/-- Witness for C8: a one-element heap and one element child; the original
cell 0 is unchanged and the output address 1 is fresh. -/
theorem c8_no_mutation_w :
    ([wElem, rewriteElem wElem] : Heap)[0]? = ([wElem] : Heap)[0]? ∧
    ([wElem] : Heap).length ≤ 1 := by
  obtain ⟨f, fr⟩ := c8_no_mutation [wElem] [ChildG.elemItem 0]
      [wElem, rewriteElem wElem] [1] [] rfl
  exact ⟨f 0 (by decide), fr 1 (by simp)⟩

end FlipView
